import Mathlib

/-!
A shallow embedding of `tensorpack/models/conv2d.py` (repository
covernal/mask-rcnn-tensorflow) and proofs about it.

The Python file builds a TensorFlow graph.  We model a call to `Conv2D` /
`Conv2DTranspose` as a pure function from the call arguments plus an
environment (the TensorFlow version reported by `get_tf_version_tuple()`,
and whether the installed TensorFlow accepts grouped filters in
`tf.nn.conv2d` without raising `ValueError`) to:
  * the list of variables the call creates (name, requested shape, and
    initializer), and
  * either a Python-level error (a failed `assert`, or an uncaught
    `NameError`) or the returned tensor, represented symbolically as a tree
    of framework-primitive applications (`TExpr`).

Python `/` on ints is true division; shape entries computed with it are
modelled as exact rationals (`ℚ`); the values arising here are integers
small enough that binary floating point represents them exactly.
-/

namespace Conv2dModel

/-- Python tuple comparison `a <= b` on version pairs, lexicographic. -/
def verLE (a b : Nat × Nat) : Bool :=
  a.1 < b.1 || (a.1 = b.1 && a.2 ≤ b.2)

/-- Python tuple comparison `a >= b` on version pairs. -/
def verGE (a b : Nat × Nat) : Bool :=
  verLE b a

/-- Argument accepted by the repository helper `shape2d`: an int or a
pair (list/tuple of length 2). -/
inductive Shape2dArg where
  | int (n : Nat)
  | pair (a b : Nat)
deriving DecidableEq, Repr

/-- Modelled from the spec: repository helper `shape2d`
(`tensorpack/utils/argtools.py`, not under the provided sources) which
normalizes an int `a` to `[a, a]` and a length-2 list/tuple to a list. -/
def shape2d : Shape2dArg → List Nat
  | .int n => [n, n]
  | .pair a b => [a, b]

/-- Modelled from the spec: repository helper `get_data_format`
(`tensorpack/utils/argtools.py`, not under the provided sources); with
`tfmode=False` it maps `channels_last` to `NHWC` and `channels_first` to
`NCHW`, leaving other strings unchanged. -/
def get_data_format (data_format : String) : String :=
  if data_format = "channels_last" then "NHWC"
  else if data_format = "channels_first" then "NCHW"
  else data_format

/-- Modelled from the spec: repository helper `shape4d` on an
already-normalized 2-element list: pads with 1 at the batch and channel
positions according to the data format. -/
def shape4dList (s2 : List Nat) (data_format : String) : List Nat :=
  if get_data_format data_format = "NHWC" then 1 :: (s2 ++ [1])
  else 1 :: 1 :: s2

/-- Modelled from the spec: repository helper `shape4d` (normalizes with
`shape2d` first). -/
def shape4d (a : Shape2dArg) (data_format : String) : List Nat :=
  shape4dList (shape2d a) data_format

/-- Python `str.upper()` on the ASCII padding strings used here
(`padding.upper()`, `conv2d.py` lines 133, 138, 146 and 263). -/
def pyUpper (s : String) : String := String.mk (s.data.map Char.toUpper)

/-- TensorFlow dtypes that occur in this file. -/
inductive Dtype where
  | float32
  | float16
  | other (n : Nat)
deriving DecidableEq, Repr

/-- A variable as produced by a variable getter: either stored directly
(recording the dtype requested for storage and trainability), or the
result of `tf.cast` applied to a stored variable. -/
inductive VarVal where
  | stored (name : String) (dtype : Dtype) (trainable : Bool)
  | cast (v : VarVal) (dtype : Dtype)
deriving DecidableEq, Repr

/-- The storage dtype requested from the underlying getter. -/
def VarVal.storageDtype : VarVal → Dtype
  | .stored _ d _ => d
  | .cast v _ => v.storageDtype

/-- `float32_variable_storage_getter` from `conv2d.py` lines 16-30:
forces trainable variables to be stored in float32 and casts them to the
requested dtype.  The underlying `getter` call is modelled by the
`VarVal.stored` constructor recording the storage dtype it was asked for. -/
def float32_variable_storage_getter (name : String) (dtype : Dtype)
    (trainable : Bool) : VarVal :=
  let storage_dtype := if trainable then Dtype.float32 else dtype
  let v := VarVal.stored name storage_dtype trainable
  if trainable && dtype != Dtype.float32 then VarVal.cast v dtype
  else v

/-- Initializer objects passed around by the two layer functions. -/
inductive Initializer where
  | contribVarianceScaling (scale : ℚ) (seed : Option Nat)
  | kerasVarianceScaling (scale : ℚ) (distribution : String) (seed : Option Nat)
  | zeros
  | custom (id : Nat)
deriving DecidableEq, Repr

/-- An opaque regularizer object (the code only ever tests these against
`None`). -/
structure Regularizer where
  id : Nat
deriving DecidableEq, Repr

/-- One entry of a dynamic output shape handed to
`tf.nn.conv2d_transpose`: a component of `tf.shape(inputs)`, an integer
literal, or a dynamic component multiplied by an integer stride. -/
inductive DynDim where
  | dynAt (i : Nat)
  | lit (n : Nat)
  | mul (d : DynDim) (k : Nat)
deriving DecidableEq, Repr

/-- Arguments this code passes to the framework layer class
`tf.layers.Conv2D` on the fast path (under
`rename_get_variable({'kernel': 'W', 'bias': 'b'})`). -/
structure LayersConv2DCall where
  filters : Nat
  kernel_size : Shape2dArg
  strides : Shape2dArg
  padding : String
  data_format : String
  dilation_rate : List Nat
  activation : Bool
  use_bias : Bool
  kernel_initializer : Initializer
  bias_initializer : Initializer
  kernel_regularizer : Option Regularizer
  bias_regularizer : Option Regularizer
  activity_regularizer : Option Regularizer
deriving DecidableEq, Repr

/-- Arguments this code passes to the framework layer class
`tf.layers.Conv2DTranspose` on the version <= (1, 12) path. -/
structure LayersConv2DTransposeCall where
  filters : Nat
  kernel_size : Shape2dArg
  strides : Shape2dArg
  padding : String
  data_format : String
  activation : Bool
  use_bias : Bool
  kernel_initializer : Initializer
  bias_initializer : Initializer
  kernel_regularizer : Option Regularizer
  bias_regularizer : Option Regularizer
  activity_regularizer : Option Regularizer
deriving DecidableEq, Repr

/-- Symbolic tensor expressions: each constructor other than `inputTensor`
and `varRef` is one framework primitive applied by this code.  Variable
shapes are lists of optional rationals: `none` models a Python `None`
(statically unknown) dimension and rationals model Python's true
division. -/
inductive TExpr where
  | inputTensor
  | varRef (name : String) (shape : Option (List (Option ℚ)))
  | layersConv2D (call : LayersConv2DCall) (inp : TExpr)
  | layersConv2DTranspose (call : LayersConv2DTransposeCall) (inp : TExpr)
  | splitPart (t : TExpr) (num : Nat) (axis : Nat) (i : Nat)
  | conv2d (inp ker : TExpr) (stride : List Nat) (padding : String)
      (data_format : String) (dilations : Option (List Nat))
  | conv2dTranspose (inp ker : TExpr) (outShapeDyn : List DynDim)
      (stride : List Nat) (padding : String) (data_format : String)
  | concat (parts : List TExpr) (axis : Nat)
  | setShape (t : TExpr) (shape : List (Option Nat))
  | biasAdd (t b : TExpr) (data_format : String)
  | activationApply (t : TExpr)
  | identity (t : TExpr) (name : String)

/-- A variable created by a call: its name, the requested shape when this
code computes the shape itself (`none` when the framework layer computes
it internally), and the initializer handed to the framework. -/
structure CreatedVar where
  name : String
  shape : Option (List (Option ℚ))
  initializer : Initializer
deriving DecidableEq, Repr

/-- The `VariableHolder` attached to the returned tensor: field `W`
always, field `b` only when present. -/
structure VarHolder where
  W : TExpr
  b : Option TExpr

/-- Which of the version- and argument-dependent code paths a completed
call went through. -/
inductive CodePath where
  | layersConv : CodePath
  | rawConv (usedLoopFallback : Bool) : CodePath
  | layersDeconv : CodePath
  | ownDeconv : CodePath
deriving DecidableEq, Repr

/-- A Python-level error raised by a call: a failed `assert` (with its
message, empty when the `assert` has none) or a `NameError` on an
undefined name. -/
inductive PyErr where
  | assertionError (msg : String)
  | nameError (name : String)
deriving DecidableEq, Repr

/-- The result of a completed layer call. -/
structure ConvOut where
  /-- the tensor produced by the convolution primitive, before bias /
  activation / `tf.identity` -/
  conv : TExpr
  /-- the returned tensor -/
  ret : TExpr
  /-- contents of the `VariableHolder` attached to the returned tensor -/
  heldVars : VarHolder
  path : CodePath

/-- Environment of a call: the framework version returned by
`get_tf_version_tuple()`, and whether `tf.nn.conv2d` accepts grouped
filters without raising `ValueError` (availability of CUDNN grouped
convolution in the installed build). -/
structure Env where
  tfVersion : Nat × Nat
  groupedConvSupported : Bool
deriving DecidableEq, Repr

/-- The arguments of `Conv2D` after `convert_to_tflayer_args`
normalization, with the Python signature's default values.  `inputsShape`
is the static shape `inputs.get_shape().as_list()` (entries `none` for
unknown dimensions); `activation` records whether an activation callable
was passed. -/
structure Conv2DArgs where
  inputsShape : List (Option Nat)
  filters : Nat
  kernel_size : Shape2dArg
  strides : Shape2dArg := .pair 1 1
  padding : String := "same"
  data_format : String := "channels_last"
  dilation_rate : Shape2dArg := .pair 1 1
  activation : Bool := false
  use_bias : Bool := true
  kernel_initializer : Option Initializer := none
  bias_initializer : Initializer := .zeros
  kernel_regularizer : Option Regularizer := none
  bias_regularizer : Option Regularizer := none
  activity_regularizer : Option Regularizer := none
  split : Nat := 1
  seed : Option Nat := none
deriving DecidableEq, Repr

/-- The kernel initializer `Conv2D` and `Conv2DTranspose` fall back to
when `kernel_initializer is None` (`conv2d.py` lines 70-74 and
196-200). -/
def resolvedKernelInitializer (ver : Nat × Nat) (ki : Option Initializer)
    (seed : Option Nat) : Initializer :=
  match ki with
  | some k => k
  | none =>
      if verLE ver (1, 12) then .contribVarianceScaling 2 seed
      else .kerasVarianceScaling 2 "untruncated_normal" seed

/-- `channel_axis = 3 if data_format == 'NHWC' else 1` (line 106). -/
def groupChannelAxis (a : Conv2DArgs) : Nat :=
  if get_data_format a.data_format = "NHWC" then 3 else 1

/-- `in_channel = in_shape[channel_axis]` (lines 105-107); an index past
the rank is treated as an unknown dimension (inputs of a 2-D convolution
have rank 4). -/
def channelAt (a : Conv2DArgs) : Option Nat :=
  a.inputsShape.getD (groupChannelAxis a) none

/-- `filter_shape = kernel_shape + [in_channel / split, out_channel]`
(lines 118-119); Python true division, exact on the divisible inputs the
`assert` admits. -/
def groupFilterShape (a : Conv2DArgs) (in_channel : Nat) : List (Option ℚ) :=
  (shape2d a.kernel_size).map (fun n => some (n : ℚ)) ++
    [some ((in_channel : ℚ) / (a.split : ℚ)), some ((a.filters : ℚ))]

/-- The weight variable of the group/dilated path (lines 126-127). -/
def groupW (a : Conv2DArgs) (in_channel : Nat) : TExpr :=
  .varRef "W" (some (groupFilterShape a in_channel))

/-- The bias variable of the group/dilated path (line 130). -/
def groupB (a : Conv2DArgs) : TExpr :=
  .varRef "b" (some [some ((a.filters : ℚ))])

/-- The variables the group/dilated path creates, in creation order
(lines 126-130): `W` always, then `b` iff `use_bias`. -/
def groupVars (env : Env) (a : Conv2DArgs) (in_channel : Nat) :
    List CreatedVar :=
  ⟨"W", some (groupFilterShape a in_channel),
      resolvedKernelInitializer env.tfVersion a.kernel_initializer a.seed⟩ ::
    (if a.use_bias then
      [⟨"b", some [some ((a.filters : ℚ))], a.bias_initializer⟩]
    else [])

/-- `stride = shape4d(strides, data_format=data_format)` (line 121). -/
def groupStride (a : Conv2DArgs) : List Nat :=
  shape4d a.strides (get_data_format a.data_format)

/-- The `dilations` keyword argument (lines 123-125): present only from
version (1, 5). -/
def groupDilations (env : Env) (a : Conv2DArgs) : Option (List Nat) :=
  if verGE env.tfVersion (1, 5) then
    some (shape4dList (shape2d a.dilation_rate) (get_data_format a.data_format))
  else none

/-- A direct `tf.nn.conv2d` application of the group/dilated path
(lines 133 and 138). -/
def groupDirectConv (env : Env) (a : Conv2DArgs) (in_channel : Nat) : TExpr :=
  .conv2d .inputTensor (groupW a in_channel) (groupStride a)
    (pyUpper a.padding) (get_data_format a.data_format) (groupDilations env a)

/-- The loop-based grouped fallback (lines 143-148): split the input into
`split` groups along the channel axis, split `W` into `split` subsets
along its last axis, convolve pairwise, concatenate the outputs along the
channel axis. -/
def groupLoopConv (env : Env) (a : Conv2DArgs) (in_channel : Nat) : TExpr :=
  .concat
    ((List.range a.split).map (fun i =>
      .conv2d (.splitPart .inputTensor a.split (groupChannelAxis a) i)
        (.splitPart (groupW a in_channel) a.split 3 i) (groupStride a)
        (pyUpper a.padding) (get_data_format a.data_format)
        (groupDilations env a)))
    (groupChannelAxis a)

/-- Lines 132-148: the convolution tensor of the group/dilated path
(with a flag marking the loop fallback), or the error the attempt
raises.  For `split > 1` on version >= (1, 13), a `ValueError` from
`tf.nn.conv2d` lands in an `except` handler that calls `log_once`, a
name this module never imports, so a `NameError` escapes instead of the
fallback running; below (1, 13) the fallback runs directly. -/
def groupConvAttempt (env : Env) (a : Conv2DArgs) (in_channel : Nat) :
    Except PyErr (TExpr × Bool) :=
  if a.split = 1 then .ok (groupDirectConv env a in_channel, false)
  else if verGE env.tfVersion (1, 13) then
    if env.groupedConvSupported then .ok (groupDirectConv env a in_channel, false)
    else .error (.nameError "log_once")
  else .ok (groupLoopConv env a in_channel, true)

/-- Lines 150-157: optional `tf.nn.bias_add`, optional activation,
`tf.identity(..., name='output')`, and the `VariableHolder`. -/
def groupFinish (a : Conv2DArgs) (in_channel : Nat) (conv : TExpr)
    (usedLoop : Bool) : ConvOut :=
  let ret0 := if a.use_bias then
      TExpr.biasAdd conv (groupB a) (get_data_format a.data_format)
    else conv
  let ret1 := if a.activation then TExpr.activationApply ret0 else ret0
  { conv := conv, ret := .identity ret1 "output",
    heldVars :=
      { W := groupW a in_channel,
        b := if a.use_bias then some (groupB a) else none },
    path := .rawConv usedLoop }

/-- The fast path of `Conv2D` (lines 76-100): `tf.layers.Conv2D` under
`rename_get_variable({'kernel': 'W', 'bias': 'b'})`.  The layer creates
its kernel (renamed `W`) and, iff `use_bias`, its bias (renamed `b`);
their shapes are computed inside the framework. -/
def conv2dFastPath (env : Env) (a : Conv2DArgs) :
    List CreatedVar × Except PyErr ConvOut :=
  let ki := resolvedKernelInitializer env.tfVersion a.kernel_initializer a.seed
  let call : LayersConv2DCall :=
    { filters := a.filters, kernel_size := a.kernel_size,
      strides := a.strides, padding := a.padding,
      data_format := a.data_format,
      dilation_rate := shape2d a.dilation_rate,
      activation := a.activation, use_bias := a.use_bias,
      kernel_initializer := ki,
      bias_initializer := a.bias_initializer,
      kernel_regularizer := a.kernel_regularizer,
      bias_regularizer := a.bias_regularizer,
      activity_regularizer := a.activity_regularizer }
  let applied := TExpr.layersConv2D call .inputTensor
  (⟨"W", none, ki⟩ ::
      (if a.use_bias then [⟨"b", none, a.bias_initializer⟩] else []),
    .ok
      { conv := applied, ret := .identity applied "output",
        heldVars :=
          { W := .varRef "W" none,
            b := if a.use_bias then some (.varRef "b" none) else none },
        path := .layersConv })

/-- `Conv2D` from `conv2d.py` lines 32-159, as a pure function from the
environment and the call arguments to the list of variables created (in
creation order) and either a Python-level error or the completed call
result. -/
def Conv2D (env : Env) (a : Conv2DArgs) :
    List CreatedVar × Except PyErr ConvOut :=
  if a.split = 1 ∧ shape2d a.dilation_rate = [1, 1] then
    conv2dFastPath env a
  else
    -- group conv implementation (lines 102-157)
    match channelAt a with
    | none =>
        ([], .error (.assertionError "[Conv2D] Input cannot have unknown channel!"))
    | some in_channel =>
      if ¬ in_channel % a.split = 0 then
        ([], .error (.assertionError ""))
      else if ¬ (a.kernel_regularizer = none ∧ a.bias_regularizer = none ∧
          a.activity_regularizer = none) then
        ([], .error (.assertionError "Not supported by group conv or dilated conv!"))
      else if ¬ a.filters % a.split = 0 then
        ([], .error (.assertionError ""))
      else if ¬ (shape2d a.dilation_rate = [1, 1] ∨
          verGE env.tfVersion (1, 5) = true) then
        ([], .error (.assertionError "TF>=1.5 required for dilated conv."))
      else
        match groupConvAttempt env a in_channel with
        | .error e => (groupVars env a in_channel, .error e)
        | .ok (conv, usedLoop) =>
            (groupVars env a in_channel,
              .ok (groupFinish a in_channel conv usedLoop))

/-- The arguments of `Conv2DTranspose` after `convert_to_tflayer_args`
normalization, with the Python signature's default values. -/
structure Conv2DTransposeArgs where
  inputsShape : List (Option Nat)
  filters : Nat
  kernel_size : Shape2dArg
  strides : Shape2dArg := .pair 1 1
  padding : String := "same"
  data_format : String := "channels_last"
  activation : Bool := false
  use_bias : Bool := true
  kernel_initializer : Option Initializer := none
  bias_initializer : Initializer := .zeros
  kernel_regularizer : Option Regularizer := none
  bias_regularizer : Option Regularizer := none
  activity_regularizer : Option Regularizer := none
  seed : Option Nat := none
deriving DecidableEq, Repr

/-- The version <= (1, 12) path of `Conv2DTranspose` (lines 202-221):
`tf.layers.Conv2DTranspose` under
`rename_get_variable({'kernel': 'W', 'bias': 'b'})`. -/
def deconvLayersPath (env : Env) (t : Conv2DTransposeArgs) :
    List CreatedVar × Except PyErr ConvOut :=
  let ki := resolvedKernelInitializer env.tfVersion t.kernel_initializer t.seed
  let call : LayersConv2DTransposeCall :=
    { filters := t.filters, kernel_size := t.kernel_size,
      strides := t.strides, padding := t.padding,
      data_format := t.data_format,
      activation := t.activation, use_bias := t.use_bias,
      kernel_initializer := ki,
      bias_initializer := t.bias_initializer,
      kernel_regularizer := t.kernel_regularizer,
      bias_regularizer := t.bias_regularizer,
      activity_regularizer := t.activity_regularizer }
  let applied := TExpr.layersConv2DTranspose call .inputTensor
  (⟨"W", none, ki⟩ ::
      (if t.use_bias then [⟨"b", none, t.bias_initializer⟩] else []),
    .ok
      { conv := applied, ret := .identity applied "output",
        heldVars :=
          { W := .varRef "W" none,
            b := if t.use_bias then some (.varRef "b" none) else none },
        path := .layersDeconv })

/-- `channels_in` of the own implementation (lines 231 and 240/248):
`inputs.shape[1]` for NCHW, `inputs.shape[-1]` for NHWC. -/
def deconvChannelsIn (t : Conv2DTransposeArgs) : Option Nat :=
  if get_data_format t.data_format = "NCHW" then t.inputsShape.getD 1 none
  else (t.inputsShape.getLast?).getD none

/-- The dynamic output shape handed to `tf.nn.conv2d_transpose`
(lines 233-253): batch unchanged, spatial dimensions of `tf.shape(inputs)`
multiplied elementwise by the strides, channel set to `filters`. -/
def deconvOutShapeDyn (t : Conv2DTransposeArgs) : List DynDim :=
  let s := shape2d t.strides
  if get_data_format t.data_format = "NCHW" then
    [.dynAt 0, .lit t.filters, .mul (.dynAt 2) (s.getD 0 0),
      .mul (.dynAt 3) (s.getD 1 0)]
  else
    [.dynAt 0, .mul (.dynAt 1) (s.getD 0 0), .mul (.dynAt 2) (s.getD 1 0),
      .lit t.filters]

/-- The static shape (without batch) set on the result (lines 237-251):
the input's static spatial dimensions multiplied by the strides where
known, `filters` for the channel. -/
def deconvOutShape3Sta (t : Conv2DTransposeArgs) : List (Option Nat) :=
  let s := shape2d t.strides
  if get_data_format t.data_format = "NCHW" then
    [some t.filters, (t.inputsShape.getD 2 none).map (· * s.getD 0 0),
      (t.inputsShape.getD 3 none).map (· * s.getD 1 0)]
  else
    [(t.inputsShape.getD 1 none).map (· * s.getD 0 0),
      (t.inputsShape.getD 2 none).map (· * s.getD 1 0), some t.filters]

/-- `W`s requested shape, `kernel_shape + [filters, channels_in]`
(line 254). -/
def deconvWShape (t : Conv2DTransposeArgs) : List (Option ℚ) :=
  (shape2d t.kernel_size).map (fun n => some (n : ℚ)) ++
    [some ((t.filters : ℚ)), (deconvChannelsIn t).map (fun n => (n : ℚ))]

/-- The version > (1, 12) path of `Conv2DTranspose` (lines 222-271),
after its regularizer assertion: the module's own implementation around
`tf.nn.conv2d_transpose`.  The two source lines wrapping the
`tf.get_variable` calls in
`tf.variable_scope(tf.get_variable_scope(),, custom_getter=
float32_variable_storage_getter(dtype=tf.float16))` contain a duplicated
comma -- a Python syntax error -- and pass `float32_variable_storage_getter`
only its `dtype` keyword, missing the required `getter` and `name`
arguments, so CPython can never run this branch as written; this
definition follows the evident intent of the branch (create the
variables, apply the primitive), and the defect itself is recorded with
claim C4. -/
def deconvOwnPath (env : Env) (t : Conv2DTransposeArgs) :
    List CreatedVar × Except PyErr ConvOut :=
  let ki := resolvedKernelInitializer env.tfVersion t.kernel_initializer t.seed
  let W := TExpr.varRef "W" (some (deconvWShape t))
  let b := TExpr.varRef "b" (some [some ((t.filters : ℚ))])
  let conv0 := TExpr.conv2dTranspose .inputTensor W (deconvOutShapeDyn t)
    (shape4d t.strides (get_data_format t.data_format)) (pyUpper t.padding)
    (get_data_format t.data_format)
  -- `conv.set_shape(tf.TensorShape([None] + out_shape3_sta))` (line 266)
  let conv := TExpr.setShape conv0 (none :: deconvOutShape3Sta t)
  let ret0 := if t.use_bias then
      TExpr.biasAdd conv b (get_data_format t.data_format)
    else conv
  let ret1 := if t.activation then TExpr.activationApply ret0 else ret0
  (⟨"W", some (deconvWShape t), ki⟩ ::
      (if t.use_bias then
        [⟨"b", some [some ((t.filters : ℚ))], t.bias_initializer⟩]
      else []),
    .ok
      { conv := conv, ret := .identity ret1 "output",
        heldVars := { W := W, b := if t.use_bias then some b else none },
        path := .ownDeconv })

/-- `Conv2DTranspose` from `conv2d.py` lines 161-273. -/
def Conv2DTranspose (env : Env) (t : Conv2DTransposeArgs) :
    List CreatedVar × Except PyErr ConvOut :=
  if verLE env.tfVersion (1, 12) then
    deconvLayersPath env t
  else
    -- own implementation, to avoid Keras bugs (lines 222-271)
    if ¬ (t.kernel_regularizer = none ∧ t.bias_regularizer = none ∧
        t.activity_regularizer = none) then
      ([], .error (.assertionError
        "Unsupported arguments due to Keras bug in TensorFlow 1.13"))
    else
      deconvOwnPath env t

/-- `Deconv2D = Conv2DTranspose` (`conv2d.py` line 276). -/
def Deconv2D : Env → Conv2DTransposeArgs →
    List CreatedVar × Except PyErr ConvOut :=
  Conv2DTranspose

/-- The module export list `__all__` (`conv2d.py` line 14). -/
def moduleExports : List String :=
  ["Conv2D", "Deconv2D", "Conv2DTranspose"]

/-- The code path of a completed call, `none` when the call raised. -/
def pathOf (r : List CreatedVar × Except PyErr ConvOut) : Option CodePath :=
  match r.2 with
  | .ok o => some o.path
  | .error _ => none

/-- The convolution tensor of a completed call. -/
def convOf (r : List CreatedVar × Except PyErr ConvOut) : Option TExpr :=
  match r.2 with
  | .ok o => some o.conv
  | .error _ => none

/-- The returned tensor of a completed call. -/
def retOf (r : List CreatedVar × Except PyErr ConvOut) : Option TExpr :=
  match r.2 with
  | .ok o => some o.ret
  | .error _ => none

/-- The `VariableHolder` of a completed call. -/
def heldOf (r : List CreatedVar × Except PyErr ConvOut) : Option VarHolder :=
  match r.2 with
  | .ok o => some o.heldVars
  | .error _ => none

/-- The error a call raised, `none` when it completed. -/
def errOf (r : List CreatedVar × Except PyErr ConvOut) : Option PyErr :=
  match r.2 with
  | .ok _ => none
  | .error e => some e

/-- Names of the variables a call created, in creation order. -/
def varNames (r : List CreatedVar × Except PyErr ConvOut) : List String :=
  r.1.map CreatedVar.name

/-- Whether a tensor expression is (up to a `set_shape` refinement) one
application of a framework convolution primitive: the layer classes
`tf.layers.Conv2D` / `tf.layers.Conv2DTranspose`, `tf.nn.conv2d`,
`tf.nn.conv2d_transpose`, or the `tf.concat` of the loop-based grouped
fallback. -/
def delegatesToPrimitive : TExpr → Bool
  | .layersConv2D _ _ => true
  | .layersConv2DTranspose _ _ => true
  | .conv2d _ _ _ _ _ _ => true
  | .conv2dTranspose _ _ _ _ _ _ => true
  | .concat _ _ => true
  | .setShape t _ => delegatesToPrimitive t
  | _ => false

/-- The preconditions the group/dilated path of `Conv2D` checks by
`assert` before creating any variable (`conv2d.py` lines 104-115): a
statically known input channel count divisible by `split`, `filters`
divisible by `split`, and no regularizers. -/
def Conv2DGroupPrecond (a : Conv2DArgs) : Prop :=
  (channelAt a).isSome = true ∧ (channelAt a).getD 0 % a.split = 0 ∧
  a.filters % a.split = 0 ∧
  a.kernel_regularizer = none ∧ a.bias_regularizer = none ∧
  a.activity_regularizer = none

instance (a : Conv2DArgs) : Decidable (Conv2DGroupPrecond a) := by
  unfold Conv2DGroupPrecond; infer_instance

/-! ## Helper lemmas: a case analysis of the two functions -/

/-- When `split == 1 and dilation_rate == [1, 1]`, `Conv2D` is the fast
`tf.layers.Conv2D` path. -/
theorem Conv2D_fast_eq (env : Env) (a : Conv2DArgs)
    (h : a.split = 1 ∧ shape2d a.dilation_rate = [1, 1]) :
    Conv2D env a = conv2dFastPath env a := by
  unfold Conv2D; rw [if_pos h]

/-- On the group/dilated path, a failing precondition stops the call at
one of the first four asserts, before any variable exists. -/
theorem Conv2D_bad_precond (env : Env) (a : Conv2DArgs)
    (hnf : ¬(a.split = 1 ∧ shape2d a.dilation_rate = [1, 1]))
    (hbad : ¬ Conv2DGroupPrecond a) :
    ∃ m, Conv2D env a = ([], .error (.assertionError m)) := by
  unfold Conv2DGroupPrecond at hbad
  unfold Conv2D
  rw [if_neg hnf]
  cases hch : channelAt a with
  | none =>
      exact ⟨"[Conv2D] Input cannot have unknown channel!", by simp only [hch]⟩
  | some c =>
    rw [hch] at hbad
    simp only [hch, Option.isSome_some, Option.getD_some, true_and] at hbad
    by_cases h1 : c % a.split = 0
    · by_cases h2 : a.kernel_regularizer = none ∧ a.bias_regularizer = none ∧
          a.activity_regularizer = none
      · have h3 : ¬ a.filters % a.split = 0 := fun h3 => hbad ⟨h1, h3, h2⟩
        exact ⟨"", by
          simp only [hch, h1, h2.1, h2.2.1, h2.2.2, h3, and_self,
            not_true_eq_false, ite_false, ite_true, not_false_eq_true]⟩
      · exact ⟨"Not supported by group conv or dilated conv!", by
          simp only [hch, h1, h2, not_true_eq_false, ite_false, ite_true,
            not_false_eq_true, if_pos, if_neg]⟩
    · exact ⟨"", by simp only [hch, h1, not_false_eq_true, ite_true, ite_false]⟩

/-- The dilation/version assert (`conv2d.py` line 116). -/
theorem Conv2D_dilation_assert (env : Env) (a : Conv2DArgs) (c : Nat)
    (hnf : ¬(a.split = 1 ∧ shape2d a.dilation_rate = [1, 1]))
    (hch : channelAt a = some c)
    (hpre : Conv2DGroupPrecond a)
    (hd : ¬(shape2d a.dilation_rate = [1, 1] ∨ verGE env.tfVersion (1, 5) = true)) :
    Conv2D env a
      = ([], .error (.assertionError "TF>=1.5 required for dilated conv.")) := by
  obtain ⟨-, hmod, hfil, hk, hb, ha⟩ := hpre
  rw [hch] at hmod
  simp only [Option.getD_some] at hmod
  unfold Conv2D
  rw [if_neg hnf, hch]
  simp only [hmod, hfil, hk, hb, ha, and_self, not_true_eq_false, ite_false,
    not_false_eq_true, ite_true]
  rw [if_pos hd]

/-- With all asserts passing, the group/dilated path creates its
variables and finishes from the convolution attempt. -/
theorem Conv2D_group_eq (env : Env) (a : Conv2DArgs) (c : Nat)
    (hnf : ¬(a.split = 1 ∧ shape2d a.dilation_rate = [1, 1]))
    (hch : channelAt a = some c)
    (hpre : Conv2DGroupPrecond a)
    (hdil : shape2d a.dilation_rate = [1, 1] ∨ verGE env.tfVersion (1, 5) = true) :
    Conv2D env a = (groupVars env a c,
      match groupConvAttempt env a c with
      | .error e => .error e
      | .ok (cv, ul) => .ok (groupFinish a c cv ul)) := by
  obtain ⟨-, hmod, hfil, hk, hb, ha⟩ := hpre
  rw [hch] at hmod
  simp only [Option.getD_some] at hmod
  unfold Conv2D
  rw [if_neg hnf, hch]
  simp only [hmod, hfil, hk, hb, ha, and_self, not_true_eq_false, ite_false,
    not_false_eq_true, ite_true]
  rw [if_neg (not_not_intro hdil)]
  cases groupConvAttempt env a c with
  | error e => rfl
  | ok p => cases p; rfl

/-- Every `Conv2D` call raises an assertion, takes the fast path, or
takes the group/dilated path. -/
theorem Conv2D_cases (env : Env) (a : Conv2DArgs) :
    (∃ m, Conv2D env a = ([], .error (.assertionError m))) ∨
    ((a.split = 1 ∧ shape2d a.dilation_rate = [1, 1]) ∧
      Conv2D env a = conv2dFastPath env a) ∨
    (¬(a.split = 1 ∧ shape2d a.dilation_rate = [1, 1]) ∧
      ∃ c, channelAt a = some c ∧ Conv2D env a = (groupVars env a c,
        match groupConvAttempt env a c with
        | .error e => .error e
        | .ok (cv, ul) => .ok (groupFinish a c cv ul))) := by
  by_cases hf : a.split = 1 ∧ shape2d a.dilation_rate = [1, 1]
  · exact .inr (.inl ⟨hf, Conv2D_fast_eq env a hf⟩)
  · by_cases hpre : Conv2DGroupPrecond a
    · obtain ⟨c, hch⟩ := Option.isSome_iff_exists.mp hpre.1
      by_cases hdil : shape2d a.dilation_rate = [1, 1] ∨
          verGE env.tfVersion (1, 5) = true
      · exact .inr (.inr ⟨hf, c, hch, Conv2D_group_eq env a c hf hch hpre hdil⟩)
      · exact .inl ⟨_, Conv2D_dilation_assert env a c hf hch hpre hdil⟩
    · exact .inl (Conv2D_bad_precond env a hf hpre)

/-- The four outcomes of the convolution attempt on the group/dilated
path, by `split` and the (1, 13) version test. -/
theorem groupConvAttempt_cases (env : Env) (a : Conv2DArgs) (c : Nat) :
    (a.split = 1 ∧ groupConvAttempt env a c = .ok (groupDirectConv env a c, false)) ∨
    (¬ a.split = 1 ∧ verGE env.tfVersion (1, 13) = true ∧
      env.groupedConvSupported = true ∧
      groupConvAttempt env a c = .ok (groupDirectConv env a c, false)) ∨
    (¬ a.split = 1 ∧ verGE env.tfVersion (1, 13) = true ∧
      env.groupedConvSupported = false ∧
      groupConvAttempt env a c = .error (.nameError "log_once")) ∨
    (¬ a.split = 1 ∧ verGE env.tfVersion (1, 13) = false ∧
      groupConvAttempt env a c = .ok (groupLoopConv env a c, true)) := by
  by_cases h1 : a.split = 1
  · exact .inl ⟨h1, by unfold groupConvAttempt; rw [if_pos h1]⟩
  · cases h13 : verGE env.tfVersion (1, 13) with
    | true =>
        cases hs : env.groupedConvSupported with
        | true => exact .inr (.inl ⟨h1, rfl, rfl, by
            unfold groupConvAttempt; rw [if_neg h1]; simp [h13, hs]⟩)
        | false => exact .inr (.inr (.inl ⟨h1, rfl, rfl, by
            unfold groupConvAttempt; rw [if_neg h1]; simp [h13, hs]⟩))
    | false => exact .inr (.inr (.inr ⟨h1, rfl, by
        unfold groupConvAttempt; rw [if_neg h1]; simp [h13]⟩))

/-- Every `Conv2DTranspose` call takes the layers path, fails its
regularizer assert, or takes the own-implementation path, by the
(1, 12) version test. -/
theorem Conv2DTranspose_cases (env : Env) (t : Conv2DTransposeArgs) :
    (verLE env.tfVersion (1, 12) = true ∧
      Conv2DTranspose env t = deconvLayersPath env t) ∨
    (verLE env.tfVersion (1, 12) = false ∧
      Conv2DTranspose env t = ([], .error (.assertionError
        "Unsupported arguments due to Keras bug in TensorFlow 1.13"))) ∨
    (verLE env.tfVersion (1, 12) = false ∧
      Conv2DTranspose env t = deconvOwnPath env t) := by
  cases hv : verLE env.tfVersion (1, 12) with
  | true => exact .inl ⟨rfl, by unfold Conv2DTranspose; simp [hv]⟩
  | false =>
    by_cases hreg : t.kernel_regularizer = none ∧ t.bias_regularizer = none ∧
        t.activity_regularizer = none
    · exact .inr (.inr ⟨rfl, by
        unfold Conv2DTranspose; rw [hv]
        simp only [Bool.false_eq_true, ite_false]
        rw [if_neg (not_not_intro hreg)]⟩)
    · exact .inr (.inl ⟨rfl, by
        unfold Conv2DTranspose; rw [hv]
        simp only [Bool.false_eq_true, ite_false]
        rw [if_pos hreg]⟩)

/-! ## The claims -/

/-- C1: `Conv2D` and `Conv2DTranspose` are parameter-translation and
dispatch shims.  Every `Conv2D` call either raises, or takes exactly one
of: the `tf.layers.Conv2D` fast path (selected iff `split = 1` and
dilation `(1, 1)`), the direct raw `tf.nn.conv2d` path (split 1, or
version >= (1, 13) with grouped support), or the loop-based grouped
fallback (split > 1 below version (1, 13)); the `dilations` keyword
exists exactly from version (1, 5).  Every `Conv2DTranspose` call takes
the `tf.layers.Conv2DTranspose` path iff version <= (1, 12) and
otherwise raises or runs the own implementation around
`tf.nn.conv2d_transpose`.  In every completed call the convolution
tensor is one framework-primitive application. -/
theorem conv_dispatch_three_paths (env : Env) (a : Conv2DArgs)
    (t : Conv2DTransposeArgs) :
    ((pathOf (Conv2D env a) = none ∧ convOf (Conv2D env a) = none) ∨
      ((a.split = 1 ∧ shape2d a.dilation_rate = [1, 1]) ∧
        pathOf (Conv2D env a) = some .layersConv ∧
        (∃ call, convOf (Conv2D env a) = some (.layersConv2D call .inputTensor))) ∨
      (¬(a.split = 1 ∧ shape2d a.dilation_rate = [1, 1]) ∧
        (a.split = 1 ∨ (verGE env.tfVersion (1, 13) = true ∧
          env.groupedConvSupported = true)) ∧
        pathOf (Conv2D env a) = some (.rawConv false) ∧
        (∃ c, convOf (Conv2D env a) = some (groupDirectConv env a c))) ∨
      (¬(a.split = 1 ∧ shape2d a.dilation_rate = [1, 1]) ∧
        ¬ a.split = 1 ∧ verGE env.tfVersion (1, 13) = false ∧
        pathOf (Conv2D env a) = some (.rawConv true) ∧
        (∃ c, convOf (Conv2D env a) = some (groupLoopConv env a c)))) ∧
    (convOf (Conv2D env a)).all delegatesToPrimitive = true ∧
    (groupDilations env a).isSome = verGE env.tfVersion (1, 5) ∧
    ((verLE env.tfVersion (1, 12) = true ∧
        pathOf (Conv2DTranspose env t) = some .layersDeconv ∧
        (∃ call, convOf (Conv2DTranspose env t)
          = some (.layersConv2DTranspose call .inputTensor))) ∨
      (verLE env.tfVersion (1, 12) = false ∧
        pathOf (Conv2DTranspose env t) = none) ∨
      (verLE env.tfVersion (1, 12) = false ∧
        pathOf (Conv2DTranspose env t) = some .ownDeconv ∧
        (∃ W sh, convOf (Conv2DTranspose env t)
          = some (.setShape (.conv2dTranspose .inputTensor W
              (deconvOutShapeDyn t)
              (shape4d t.strides (get_data_format t.data_format))
              (pyUpper t.padding) (get_data_format t.data_format)) sh)))) ∧
    (convOf (Conv2DTranspose env t)).all delegatesToPrimitive = true := by
  have hdisj :
      (pathOf (Conv2D env a) = none ∧ convOf (Conv2D env a) = none) ∨
      ((a.split = 1 ∧ shape2d a.dilation_rate = [1, 1]) ∧
        pathOf (Conv2D env a) = some .layersConv ∧
        (∃ call, convOf (Conv2D env a) = some (.layersConv2D call .inputTensor))) ∨
      (¬(a.split = 1 ∧ shape2d a.dilation_rate = [1, 1]) ∧
        (a.split = 1 ∨ (verGE env.tfVersion (1, 13) = true ∧
          env.groupedConvSupported = true)) ∧
        pathOf (Conv2D env a) = some (.rawConv false) ∧
        (∃ c, convOf (Conv2D env a) = some (groupDirectConv env a c))) ∨
      (¬(a.split = 1 ∧ shape2d a.dilation_rate = [1, 1]) ∧
        ¬ a.split = 1 ∧ verGE env.tfVersion (1, 13) = false ∧
        pathOf (Conv2D env a) = some (.rawConv true) ∧
        (∃ c, convOf (Conv2D env a) = some (groupLoopConv env a c))) := by
    rcases Conv2D_cases env a with ⟨m, hm⟩ | ⟨hf, hm⟩ | ⟨hnf, c, hch, hm⟩
    · exact .inl ⟨by rw [hm]; rfl, by rw [hm]; rfl⟩
    · exact .inr (.inl ⟨hf, by rw [hm]; rfl, ⟨_, by rw [hm]; rfl⟩⟩)
    · rcases groupConvAttempt_cases env a c with
        ⟨h1, hA⟩ | ⟨h1, h13, hs, hA⟩ | ⟨h1, h13, hs, hA⟩ | ⟨h1, h13, hA⟩
      · exact .inr (.inr (.inl ⟨hnf, .inl h1,
          by rw [hm, hA]; rfl, ⟨c, by rw [hm, hA]; rfl⟩⟩))
      · exact .inr (.inr (.inl ⟨hnf, .inr ⟨h13, hs⟩,
          by rw [hm, hA]; rfl, ⟨c, by rw [hm, hA]; rfl⟩⟩))
      · exact .inl ⟨by rw [hm, hA]; rfl, by rw [hm, hA]; rfl⟩
      · exact .inr (.inr (.inr ⟨hnf, h1, h13,
          by rw [hm, hA]; rfl, ⟨c, by rw [hm, hA]; rfl⟩⟩))
  have hdel1 : (convOf (Conv2D env a)).all delegatesToPrimitive = true := by
    rcases hdisj with ⟨-, h⟩ | ⟨-, -, call, h⟩ | ⟨-, -, -, c, h⟩ | ⟨-, -, -, -, c, h⟩ <;>
      rw [h] <;> rfl
  have hdil5 : (groupDilations env a).isSome = verGE env.tfVersion (1, 5) := by
    unfold groupDilations
    cases h5 : verGE env.tfVersion (1, 5) <;> simp [h5]
  have hdisj2 :
      (verLE env.tfVersion (1, 12) = true ∧
        pathOf (Conv2DTranspose env t) = some .layersDeconv ∧
        (∃ call, convOf (Conv2DTranspose env t)
          = some (.layersConv2DTranspose call .inputTensor))) ∨
      (verLE env.tfVersion (1, 12) = false ∧
        pathOf (Conv2DTranspose env t) = none) ∨
      (verLE env.tfVersion (1, 12) = false ∧
        pathOf (Conv2DTranspose env t) = some .ownDeconv ∧
        (∃ W sh, convOf (Conv2DTranspose env t)
          = some (.setShape (.conv2dTranspose .inputTensor W
              (deconvOutShapeDyn t)
              (shape4d t.strides (get_data_format t.data_format))
              (pyUpper t.padding) (get_data_format t.data_format)) sh))) := by
    rcases Conv2DTranspose_cases env t with ⟨hv, hm⟩ | ⟨hv, hm⟩ | ⟨hv, hm⟩
    · exact .inl ⟨hv, by rw [hm]; rfl, ⟨_, by rw [hm]; rfl⟩⟩
    · exact .inr (.inl ⟨hv, by rw [hm]; rfl⟩)
    · exact .inr (.inr ⟨hv, by rw [hm]; rfl,
        ⟨TExpr.varRef "W" (some (deconvWShape t)),
          none :: deconvOutShape3Sta t, by rw [hm]; rfl⟩⟩)
  have hdel2 : (convOf (Conv2DTranspose env t)).all delegatesToPrimitive = true := by
    rcases Conv2DTranspose_cases env t with ⟨-, hm⟩ | ⟨-, hm⟩ | ⟨-, hm⟩ <;>
      rw [hm] <;> rfl
  exact ⟨hdisj, hdel1, hdil5, hdisj2, hdel2⟩

/-- C2: the loop-based grouped fallback.  With `split = 2` on version
(1, 13) where the direct grouped `tf.nn.conv2d` raises `ValueError`, the
call does not fall back: the `except` handler references `log_once`,
which this module never imports, so a `NameError` escapes.  On version
(1, 0), where no direct attempt exists, the fallback runs and is exactly:
split the input into 2 groups along channel axis 3, split `W` into 2
subsets along its last axis, convolve pairwise, concatenate along the
channel axis. -/
theorem group_conv_fallback_nameerror :
    (Conv2D ⟨(1, 13), false⟩
      { inputsShape := [none, some 5, some 5, some 4],
        filters := 6, kernel_size := .int 3, split := 2 }).2
      = .error (.nameError "log_once") ∧
    convOf (Conv2D ⟨(1, 0), false⟩
      { inputsShape := [none, some 5, some 5, some 4],
        filters := 6, kernel_size := .int 3, split := 2 })
      = some (.concat [
          .conv2d (.splitPart .inputTensor 2 3 0)
            (.splitPart (.varRef "W"
              (some [some ((3 : ℕ) : ℚ), some ((3 : ℕ) : ℚ),
                some (((4 : ℕ) : ℚ) / ((2 : ℕ) : ℚ)), some ((6 : ℕ) : ℚ)])) 2 3 0)
            [1, 1, 1, 1] "SAME" "NHWC" none,
          .conv2d (.splitPart .inputTensor 2 3 1)
            (.splitPart (.varRef "W"
              (some [some ((3 : ℕ) : ℚ), some ((3 : ℕ) : ℚ),
                some (((4 : ℕ) : ℚ) / ((2 : ℕ) : ℚ)), some ((6 : ℕ) : ℚ)])) 2 3 1)
            [1, 1, 1, 1] "SAME" "NHWC" none] 3) :=
  ⟨rfl, rfl⟩

/-- C3 counterexample: at framework version (0, 0) -- below any minimum
the code could require -- a grouped convolution with `split = 2` and all
other preconditions satisfied completes with no assertion failure, on the
loop fallback; so no assertion rejects `split > 1` below a minimum
framework version. -/
theorem group_conv_no_version_assert_cex :
    errOf (Conv2D ⟨(0, 0), false⟩
      { inputsShape := [none, some 5, some 5, some 4],
        filters := 6, kernel_size := .int 3, split := 2 }) = none ∧
    pathOf (Conv2D ⟨(0, 0), false⟩
      { inputsShape := [none, some 5, some 5, some 4],
        filters := 6, kernel_size := .int 3, split := 2 })
      = some (.rawConv true) :=
  ⟨rfl, rfl⟩

/-- C3 (amended): on the non-fast path, a dilation rate other than
`(1, 1)` fails by assertion unless the framework version is at least
(1, 5); grouped convolution (`split > 1`) is not rejected by any version
assertion -- with the other preconditions satisfied it completes below
version (1, 13) via the loop fallback. -/
theorem dilated_version_assert_only (env1 env2 : Env) (a b : Conv2DArgs)
    (c : Nat)
    (had : ¬ shape2d a.dilation_rate = [1, 1])
    (hav : verGE env1.tfVersion (1, 5) = false)
    (hach : channelAt a = some c)
    (hap : Conv2DGroupPrecond a)
    (hbs : ¬ b.split = 1)
    (hbd : shape2d b.dilation_rate = [1, 1])
    (hbp : Conv2DGroupPrecond b)
    (hbv : verGE env2.tfVersion (1, 13) = false) :
    (Conv2D env1 a).2
      = .error (.assertionError "TF>=1.5 required for dilated conv.") ∧
    (errOf (Conv2D env2 b) = none ∧
      pathOf (Conv2D env2 b) = some (.rawConv true)) := by
  have hanf : ¬(a.split = 1 ∧ shape2d a.dilation_rate = [1, 1]) :=
    fun h => had h.2
  have hbnf : ¬(b.split = 1 ∧ shape2d b.dilation_rate = [1, 1]) :=
    fun h => hbs h.1
  have hd : ¬(shape2d a.dilation_rate = [1, 1] ∨
      verGE env1.tfVersion (1, 5) = true) := by
    rintro (h | h)
    · exact had h
    · rw [hav] at h; exact Bool.false_ne_true h
  refine ⟨by rw [Conv2D_dilation_assert env1 a c hanf hach hap hd], ?_⟩
  obtain ⟨cb, hbch⟩ := Option.isSome_iff_exists.mp hbp.1
  have heq := Conv2D_group_eq env2 b cb hbnf hbch hbp (.inl hbd)
  rcases groupConvAttempt_cases env2 b cb with
    ⟨h1, -⟩ | ⟨-, h13, -, -⟩ | ⟨-, h13, -, -⟩ | ⟨-, -, hA⟩
  · exact absurd h1 hbs
  · rw [hbv] at h13; exact absurd h13 Bool.false_ne_true
  · rw [hbv] at h13; exact absurd h13 Bool.false_ne_true
  · exact ⟨by rw [heq, hA]; rfl, by rw [heq, hA]; rfl⟩

/-- C4: on framework versions above (1, 12), the intended workaround path
of `Conv2DTranspose` (modelled with the source's syntax slip repaired)
creates `W` with shape `kernel_size + [filters, channels_in]`, calls
`tf.nn.conv2d_transpose` with a dynamic output shape whose spatial
dimensions are the input's spatial dimensions times the strides, and
sets the corresponding static shape -- here at version (1, 13), input
`[None, 5, 7, 4]`, filters 6, kernel 3, strides (2, 3).  The source
lines themselves (252-256) cannot run: see the `deconvOwnPath` doc. -/
theorem deconv_own_path_structure :
    pathOf (Conv2DTranspose ⟨(1, 13), true⟩
      { inputsShape := [none, some 5, some 7, some 4],
        filters := 6, kernel_size := .int 3, strides := .pair 2 3 })
      = some .ownDeconv ∧
    (Conv2DTranspose ⟨(1, 13), true⟩
      { inputsShape := [none, some 5, some 7, some 4],
        filters := 6, kernel_size := .int 3, strides := .pair 2 3 }).1
      = [⟨"W", some [some ((3 : ℕ) : ℚ), some ((3 : ℕ) : ℚ),
            some ((6 : ℕ) : ℚ), some ((4 : ℕ) : ℚ)],
          .kerasVarianceScaling 2 "untruncated_normal" none⟩,
         ⟨"b", some [some ((6 : ℕ) : ℚ)], .zeros⟩] ∧
    convOf (Conv2DTranspose ⟨(1, 13), true⟩
      { inputsShape := [none, some 5, some 7, some 4],
        filters := 6, kernel_size := .int 3, strides := .pair 2 3 })
      = some (.setShape (.conv2dTranspose .inputTensor
          (.varRef "W" (some [some ((3 : ℕ) : ℚ), some ((3 : ℕ) : ℚ),
            some ((6 : ℕ) : ℚ), some ((4 : ℕ) : ℚ)]))
          [.dynAt 0, .mul (.dynAt 1) 2, .mul (.dynAt 2) 3, .lit 6]
          [1, 2, 3, 1] "SAME" "NHWC")
          [none, some 10, some 21, some 6]) :=
  ⟨rfl, rfl, rfl⟩

/-- C5: in every completed code path of both functions, the created
variables are exactly `W`, plus `b` iff `use_bias`; the returned
`VariableHolder` holds `W`, and holds a `b` variable iff `use_bias`. -/
theorem variable_naming (env : Env) (a : Conv2DArgs)
    (t : Conv2DTransposeArgs) :
    (varNames (Conv2D env a) = [] ∨
      varNames (Conv2D env a) = "W" :: (if a.use_bias then ["b"] else [])) ∧
    (∀ h, heldOf (Conv2D env a) = some h →
      (∃ s, h.W = TExpr.varRef "W" s) ∧
      ((∃ s, h.b = some (TExpr.varRef "b" s)) ↔ a.use_bias = true)) ∧
    (varNames (Conv2DTranspose env t) = [] ∨
      varNames (Conv2DTranspose env t)
        = "W" :: (if t.use_bias then ["b"] else [])) ∧
    (∀ h, heldOf (Conv2DTranspose env t) = some h →
      (∃ s, h.W = TExpr.varRef "W" s) ∧
      ((∃ s, h.b = some (TExpr.varRef "b" s)) ↔ t.use_bias = true)) := by
  refine ⟨?_, ?_, ?_, ?_⟩
  · rcases Conv2D_cases env a with ⟨m, hm⟩ | ⟨-, hm⟩ | ⟨-, c, -, hm⟩ <;> rw [hm]
    · exact .inl rfl
    · right; unfold varNames conv2dFastPath; cases a.use_bias <;> rfl
    · right; unfold varNames groupVars; cases a.use_bias <;> rfl
  · intro h hh
    rcases Conv2D_cases env a with ⟨m, hm⟩ | ⟨-, hm⟩ | ⟨-, c, -, hm⟩ <;>
      rw [hm] at hh
    · simp [heldOf] at hh
    · unfold heldOf conv2dFastPath at hh
      simp only [Option.some.injEq] at hh
      subst hh
      refine ⟨⟨none, rfl⟩, ?_⟩
      cases hub : a.use_bias <;> simp [hub]
    · cases hA : groupConvAttempt env a c with
      | error e => rw [hA] at hh; simp [heldOf] at hh
      | ok p =>
          obtain ⟨cv, ul⟩ := p
          rw [hA] at hh
          unfold heldOf groupFinish at hh
          simp only [Option.some.injEq] at hh
          subst hh
          refine ⟨⟨some (groupFilterShape a c), rfl⟩, ?_⟩
          cases hub : a.use_bias <;> simp [hub, groupB]
  · rcases Conv2DTranspose_cases env t with ⟨-, hm⟩ | ⟨-, hm⟩ | ⟨-, hm⟩ <;>
      rw [hm]
    · right; unfold varNames deconvLayersPath; cases t.use_bias <;> rfl
    · exact .inl rfl
    · right; unfold varNames deconvOwnPath; cases t.use_bias <;> rfl
  · intro h hh
    rcases Conv2DTranspose_cases env t with ⟨-, hm⟩ | ⟨-, hm⟩ | ⟨-, hm⟩ <;>
      rw [hm] at hh
    · unfold heldOf deconvLayersPath at hh
      simp only [Option.some.injEq] at hh
      subst hh
      refine ⟨⟨none, rfl⟩, ?_⟩
      cases hub : t.use_bias <;> simp [hub]
    · simp [heldOf] at hh
    · unfold heldOf deconvOwnPath at hh
      simp only [Option.some.injEq] at hh
      subst hh
      refine ⟨⟨some (deconvWShape t), rfl⟩, ?_⟩
      cases hub : t.use_bias <;> simp [hub]

/-- C6: with `kernel_initializer=None`, both layer functions behave as if
called with the version-dependent default (the contrib variance-scaling
initializer with scale 2.0 for versions <= (1, 12), the keras
`VarianceScaling` with scale 2.0 and distribution `untruncated_normal`
otherwise); the signature defaults are the zeros initializer for the
bias and `same` for padding. -/
theorem default_initializers_and_padding (env : Env) (a : Conv2DArgs)
    (t : Conv2DTransposeArgs) (s : List (Option Nat)) (f : Nat)
    (k : Shape2dArg) :
    Conv2D env { a with kernel_initializer := (some
          (if verLE env.tfVersion (1, 12) then
            Initializer.contribVarianceScaling 2 a.seed
          else Initializer.kerasVarianceScaling 2 "untruncated_normal" a.seed)) }
      = Conv2D env { a with kernel_initializer := none } ∧
    Conv2DTranspose env { t with kernel_initializer := (some
          (if verLE env.tfVersion (1, 12) then
            Initializer.contribVarianceScaling 2 t.seed
          else Initializer.kerasVarianceScaling 2 "untruncated_normal" t.seed)) }
      = Conv2DTranspose env { t with kernel_initializer := none } ∧
    ({ inputsShape := s, filters := f, kernel_size := k } : Conv2DArgs).padding
      = "same" ∧
    ({ inputsShape := s, filters := f, kernel_size := k } : Conv2DArgs).bias_initializer
      = .zeros ∧
    ({ inputsShape := s, filters := f, kernel_size := k } : Conv2DTransposeArgs).padding
      = "same" ∧
    ({ inputsShape := s, filters := f, kernel_size := k } : Conv2DTransposeArgs).bias_initializer
      = .zeros :=
  ⟨rfl, rfl, rfl, rfl, rfl, rfl⟩

/-- C7: the module exposes exactly the three public names `Conv2D`,
`Deconv2D`, `Conv2DTranspose`; `Deconv2D` and `Conv2DTranspose` denote
the same function, so on every input they produce identical results. -/
theorem deconv2d_is_conv2d_transpose :
    moduleExports = ["Conv2D", "Deconv2D", "Conv2DTranspose"] ∧
    Deconv2D = Conv2DTranspose ∧
    ∀ (env : Env) (t : Conv2DTransposeArgs),
      Deconv2D env t = Conv2DTranspose env t :=
  ⟨rfl, rfl, fun _ _ => rfl⟩

/-- C8: the group/dilated path of `Conv2D` fails by assertion, creating
no variable, whenever the statically-known-channel, divisibility or
no-regularizer preconditions fail; the version > (1, 12) branch of
`Conv2DTranspose` likewise rejects any non-`None` regularizer by
assertion before creating a variable. -/
theorem precondition_asserts (env : Env) (a : Conv2DArgs)
    (t : Conv2DTransposeArgs)
    (hnf : ¬(a.split = 1 ∧ shape2d a.dilation_rate = [1, 1]))
    (hbad : ¬ Conv2DGroupPrecond a)
    (hver : verLE env.tfVersion (1, 12) = false)
    (hreg : ¬(t.kernel_regularizer = none ∧ t.bias_regularizer = none ∧
      t.activity_regularizer = none)) :
    ((∃ m, (Conv2D env a).2 = .error (.assertionError m)) ∧
      (Conv2D env a).1 = []) ∧
    ((Conv2DTranspose env t).2 = .error (.assertionError
        "Unsupported arguments due to Keras bug in TensorFlow 1.13") ∧
      (Conv2DTranspose env t).1 = []) := by
  constructor
  · obtain ⟨m, hm⟩ := Conv2D_bad_precond env a hnf hbad
    exact ⟨⟨m, by rw [hm]⟩, by rw [hm]⟩
  · unfold Conv2DTranspose
    rw [hver]
    simp only [Bool.false_eq_true, ite_false]
    rw [if_pos hreg]
    exact ⟨rfl, rfl⟩

/-- C9: `float32_variable_storage_getter` requests storage of trainable
variables at float32 and of non-trainable variables at the requested
dtype, and returns the stored variable cast to the requested dtype
exactly when the variable is trainable and the requested dtype differs
from float32; otherwise it returns the stored variable unchanged. -/
theorem float32_getter_storage_and_cast (name : String) (dtype : Dtype)
    (trainable : Bool) :
    (float32_variable_storage_getter name dtype trainable).storageDtype
      = (if trainable then Dtype.float32 else dtype) ∧
    (float32_variable_storage_getter name dtype trainable
        = VarVal.cast
            (VarVal.stored name (if trainable then Dtype.float32 else dtype)
              trainable) dtype
      ↔ trainable = true ∧ dtype ≠ Dtype.float32) ∧
    (float32_variable_storage_getter name dtype trainable
        = VarVal.stored name (if trainable then Dtype.float32 else dtype)
            trainable
      ↔ ¬(trainable = true ∧ dtype ≠ Dtype.float32)) := by
  unfold float32_variable_storage_getter
  by_cases h : dtype = Dtype.float32 <;>
    cases trainable <;>
      simp [h, VarVal.storageDtype]

/-- C10: on the group/dilated path, given that `split` divides the input
channel count, the weight `W` is created first, with shape
`[kernel_h, kernel_w, in_channel / split, filters]` whose third
component (Python true division) is the exact integer quotient. -/
theorem group_conv_weight_shape (env : Env) (a : Conv2DArgs) (c : Nat)
    (hnf : ¬(a.split = 1 ∧ shape2d a.dilation_rate = [1, 1]))
    (hch : channelAt a = some c)
    (hsplit : a.split ≠ 0)
    (hdvd : a.split ∣ c)
    (hfil : a.filters % a.split = 0)
    (hk : a.kernel_regularizer = none) (hb : a.bias_regularizer = none)
    (ha : a.activity_regularizer = none)
    (hdil : shape2d a.dilation_rate = [1, 1] ∨ verGE env.tfVersion (1, 5) = true) :
    (Conv2D env a).1.head? = some ⟨"W",
      some ((shape2d a.kernel_size).map (fun n => some (n : ℚ)) ++
        [some ((c / a.split : ℕ) : ℚ), some ((a.filters : ℚ))]),
      resolvedKernelInitializer env.tfVersion a.kernel_initializer a.seed⟩ := by
  have hmod : c % a.split = 0 := Nat.mod_eq_zero_of_dvd hdvd
  have hcast : ((c / a.split : ℕ) : ℚ) = (c : ℚ) / (a.split : ℚ) :=
    Nat.cast_div hdvd (by exact_mod_cast hsplit)
  unfold Conv2D
  rw [if_neg hnf, hch]
  simp only [hmod, hfil, hk, hb, ha, hcast, not_true_eq_false, ite_false,
    if_neg, not_false_eq_true, and_self, and_true, true_and, if_pos]
  rw [if_neg (not_not_intro hdil)]
  split <;> simp [groupVars, groupFilterShape, hcast]

/-! ## Witnesses: the hypothesis-bearing theorems at concrete inputs -/

/-- Witness for C3's amended theorem: dilation (2, 2) at version (1, 4)
fails the version assertion, while `split = 2` at version (1, 0)
completes on the loop path. -/
theorem dilated_version_assert_only_witness :
    (Conv2D ⟨(1, 4), false⟩
      { inputsShape := [none, some 5, some 5, some 4],
        filters := 6, kernel_size := .int 3, dilation_rate := .pair 2 2 }).2
      = .error (.assertionError "TF>=1.5 required for dilated conv.") ∧
    (errOf (Conv2D ⟨(1, 0), false⟩
        { inputsShape := [none, some 5, some 5, some 4],
          filters := 6, kernel_size := .int 3, split := 2 }) = none ∧
      pathOf (Conv2D ⟨(1, 0), false⟩
        { inputsShape := [none, some 5, some 5, some 4],
          filters := 6, kernel_size := .int 3, split := 2 })
        = some (.rawConv true)) :=
  dilated_version_assert_only ⟨(1, 4), false⟩ ⟨(1, 0), false⟩
    { inputsShape := [none, some 5, some 5, some 4],
      filters := 6, kernel_size := .int 3, dilation_rate := .pair 2 2 }
    { inputsShape := [none, some 5, some 5, some 4],
      filters := 6, kernel_size := .int 3, split := 2 } 4
    (by decide) rfl rfl (by decide) (by decide) rfl (by decide) rfl

/-- Witness for C8: an unknown input channel with `split = 2` fails by
assertion with no variable created; a kernel regularizer on version
(1, 13) fails the `Conv2DTranspose` assertion with no variable created. -/
theorem precondition_asserts_witness :
    ((∃ m, (Conv2D ⟨(1, 13), true⟩
        { inputsShape := [none, some 5, some 5, none],
          filters := 6, kernel_size := .int 3, split := 2 }).2
        = .error (.assertionError m)) ∧
      (Conv2D ⟨(1, 13), true⟩
        { inputsShape := [none, some 5, some 5, none],
          filters := 6, kernel_size := .int 3, split := 2 }).1 = []) ∧
    ((Conv2DTranspose ⟨(1, 13), true⟩
        { inputsShape := [none, some 5, some 5, some 4],
          filters := 6, kernel_size := .int 3,
          kernel_regularizer := some ⟨0⟩ }).2
        = .error (.assertionError
          "Unsupported arguments due to Keras bug in TensorFlow 1.13") ∧
      (Conv2DTranspose ⟨(1, 13), true⟩
        { inputsShape := [none, some 5, some 5, some 4],
          filters := 6, kernel_size := .int 3,
          kernel_regularizer := some ⟨0⟩ }).1 = []) :=
  precondition_asserts ⟨(1, 13), true⟩
    { inputsShape := [none, some 5, some 5, none],
      filters := 6, kernel_size := .int 3, split := 2 }
    { inputsShape := [none, some 5, some 5, some 4],
      filters := 6, kernel_size := .int 3, kernel_regularizer := some ⟨0⟩ }
    (by decide) (by decide) rfl (by decide)

/-- Witness for C10: input channels 4, `split = 2`, filters 6, kernel 3
at version (1, 13): `W` is created first with shape `[3, 3, 2, 6]`. -/
theorem group_conv_weight_shape_witness :
    (Conv2D ⟨(1, 13), true⟩
      { inputsShape := [none, some 5, some 5, some 4],
        filters := 6, kernel_size := .int 3, split := 2 }).1.head?
      = some ⟨"W",
        some ((shape2d (Shape2dArg.int 3)).map (fun n => some (n : ℚ)) ++
          [some ((4 / 2 : ℕ) : ℚ), some (((6 : ℕ) : ℚ))]),
        resolvedKernelInitializer (1, 13) none none⟩ :=
  group_conv_weight_shape ⟨(1, 13), true⟩
    { inputsShape := [none, some 5, some 5, some 4],
      filters := 6, kernel_size := .int 3, split := 2 } 4
    (by decide) rfl (by decide) (by decide) rfl rfl rfl rfl (.inl rfl)

end Conv2dModel
